import Mathlib

/-!
Verification development for the snowcammeasurement repository.

This file shallowly embeds the measurement engine of the repository:

* `WinterParkMeasurer` (src/resorts/winter_park/measurer.py): the
  marker-interpolation measurer — `y_to_inches`, the aggregation stage of
  `detect_snow_line`, `is_grayscale_image`, `measure`, `measure_from_file`.
* `SnowStakeMeasurer` (src/snowcammeasurement/measurement.py): the linear
  measurer — `y_to_inches`, the aggregation stage of `_detect_snow_line`,
  and the depth-aggregation part of `measure`.

Modelling conventions:

* Python floats are modelled as `Rat` (all arithmetic the engine performs on
  the quantities of interest is exact: sums, means, percentiles, linear
  interpolation).  Pixel Y positions are `Int`.
* Python exceptions (IndexError on list indexing, ZeroDivisionError) are
  modelled with `Except String`: `pyIdx` implements Python list indexing
  (negative indices wrap once), `pyDiv` implements Python division.
* Python truthiness tests on numbers/`None` are modelled explicitly:
  `None` and `0` are falsy.
* The per-pixel scanning stage (building intensity profiles from the image)
  is not embedded; the aggregation stages are parametrised by the list of
  per-sample records the scanning stage produced, exactly as the source
  functions consume them.
* Images are `List (List (Rat × Rat × Rat))` — rows of (B, G, R) pixels,
  matching the 3-channel BGR buffers cv2 supplies.  NumPy slicing with the
  concrete slice bounds used by the source is embedded by `pySlice`.
-/

/-- Python list indexing `l[i]`: a negative index wraps once; an index still
out of range raises `IndexError`. -/
def pyIdx {α : Type} (l : List α) (i : Int) : Except String α :=
  let j : Int := if i < 0 then i + l.length else i
  if h : 0 ≤ j ∧ j.toNat < l.length then
    .ok (l.get ⟨j.toNat, h.2⟩)
  else
    .error "IndexError: list index out of range"

/-- Python division: raises `ZeroDivisionError` on a zero divisor. -/
def pyDiv (a b : Rat) : Except String Rat :=
  if b = 0 then .error "ZeroDivisionError: division by zero" else .ok (a / b)

/-- Python `int()` applied to a float: truncation toward zero. -/
def pyInt (q : Rat) : Int :=
  if q < 0 then -((-q).floor) else q.floor

/-- One bound of a Python/NumPy slice `l[a:b]` resolved against length `n`. -/
def pySliceIdx (n : Nat) (i : Int) : Nat :=
  if i < 0 then (max 0 ((n : Int) + i)).toNat else min i.toNat n

/-- Python/NumPy slicing `l[a:b]` (step 1). -/
def pySlice {α : Type} (l : List α) (a b : Int) : List α :=
  (l.drop (pySliceIdx l.length a)).take (pySliceIdx l.length b - pySliceIdx l.length a)

/-- Insert into an ascending list, keeping it ascending. -/
def insertAsc (x : Rat) : List Rat → List Rat
  | [] => [x]
  | y :: ys => if x ≤ y then x :: y :: ys else y :: insertAsc x ys

/-- Ascending insertion sort (the sort NumPy performs inside
`np.percentile` / `np.median`). -/
def sortAsc (l : List Rat) : List Rat :=
  l.foldr insertAsc []

/-- `np.percentile(l, q)` with the default linear interpolation: with the
data sorted ascending and `h = (n-1)·q/100`, the result is
`a[⌊h⌋] + (h - ⌊h⌋)·(a[⌊h⌋+1] - a[⌊h⌋])`.  The source only calls it on
non-empty data; on `[]` we return 0. -/
def percentile (l : List Rat) (q : Rat) : Rat :=
  let s := sortAsc l
  let n := s.length
  if n = 0 then 0
  else
    let h : Rat := ((n : Rat) - 1) * q / 100
    let k : Nat := h.floor.toNat
    let vk := s.getD k 0
    let vk1 := s.getD (k + 1) vk
    vk + (h - (k : Rat)) * (vk1 - vk)

/-- `np.median`, which is the 50th percentile. -/
def npMedian (l : List Rat) : Rat :=
  percentile l 50

namespace WinterParkMeasurer

/-- Scan of the bracketing loop in `y_to_inches`
(src/resorts/winter_park/measurer.py lines 134-139): walking the sorted
marker list from the base, stop at the first marker whose pixel Y is ≥ `y`,
returning it together with the following marker if one exists. -/
def bracketScan (y : Int) : List (Int × Int) → Option ((Int × Int) × Option (Int × Int))
  | [] => none
  | m :: rest => if m.2 ≥ y then some (m, rest.head?) else bracketScan y rest

/-- `WinterParkMeasurer.y_to_inches` (src/resorts/winter_park/measurer.py
lines 103-154).  `sortedMarkers` is `self.sorted_markers`: the
`(inch, pixel Y)` pairs sorted ascending by inch value. -/
def y_to_inches (sortedMarkers : List (Int × Int)) (y : Int) : Except String Rat := do
  let last ← pyIdx sortedMarkers (-1)
  if y ≤ last.2 then
    -- Above the topmost marker: extrapolate from the top two markers.
    let m2 ← pyIdx sortedMarkers (-2)
    let ppiLocal ← pyDiv ((m2.2 - last.2 : Int) : Rat) ((last.1 - m2.1 : Int) : Rat)
    let extraInches ← pyDiv ((last.2 - y : Int) : Rat) ppiLocal
    return (last.1 : Rat) + extraInches
  else
    let first ← pyIdx sortedMarkers 0
    if y ≥ first.2 then
      -- At or below the 0" marker.
      return 0
    else
      let lower := ((bracketScan y sortedMarkers).map Prod.fst).getD first
      let upper :=
        match bracketScan y sortedMarkers with
        | some (_, some u) => u
        | _ => last
      if lower.2 = upper.2 then
        return (lower.1 : Rat)
      else
        let fraction : Rat := ((lower.2 - y : Int) : Rat) / ((lower.2 - upper.2 : Int) : Rat)
        return (lower.1 : Rat) + fraction * ((upper.1 : Rat) - (lower.1 : Rat))

end WinterParkMeasurer

/-- Python truthiness of an optional integer (`None` and `0` are falsy). -/
def truthyInt (o : Option Int) : Bool :=
  match o with
  | none => false
  | some v => v ≠ 0

/-- Python truthiness of an optional rational (`None` and `0.0` are falsy). -/
def truthyRat (o : Option Rat) : Bool :=
  match o with
  | none => false
  | some v => v ≠ 0

/-- Python truthiness of an optional string (`None` and `""` are falsy);
used for `s.get('skip_reason')` tests. -/
def truthyStr (o : Option String) : Bool :=
  match o with
  | none => false
  | some v => v ≠ ""

/-- Python `min` over a non-empty list (`none` on `[]`, where Python raises;
the source guards every call with a non-emptiness test). -/
def listMin (l : List Rat) : Option Rat :=
  match l with
  | [] => none
  | x :: xs => some (xs.foldl min x)

/-- Python `max` over a non-empty list. -/
def listMax (l : List Rat) : Option Rat :=
  match l with
  | [] => none
  | x :: xs => some (xs.foldl max x)

/-- `sum(l) / len(l)`. -/
def listAvg (l : List Rat) : Rat :=
  l.sum / l.length

/-- Dictionary lookup `d.get(k)` on marker positions, represented as the
association list of `(inch, pixel Y)` pairs (dict keys are unique). -/
def dictGet (markers : List (Int × Int)) (k : Int) : Option Int :=
  (markers.find? (fun p => p.1 = k)).map Prod.snd

/-- One per-sample record (`sample_data` dict in both measurers).  Pixel
diagnostics (`x_position`, `contrast`, texture/colour fields) do not enter
any aggregation decision and are omitted. -/
structure Sample where
  sample_index : Int
  snow_line_y : Option Int
  depth_inches : Option Rat
  valid : Bool
  skip_reason : Option String
  at_base : Bool := false
  iqr_outlier : Bool := false
  shallow_excluded : Bool := false
  deriving Repr, DecidableEq

/-- `[s['depth_inches'] for s in samples if s.get('valid') and s['depth_inches'] is not None]`
(src/snowcammeasurement/measurement.py lines 307-308 and
src/resorts/winter_park/measurer.py line 532). -/
def validDepths (samples : List Sample) : List Rat :=
  samples.filterMap (fun s => if s.valid then s.depth_inches else none)

/-- `[s['snow_line_y'] for s in samples if s.get('valid') and s['snow_line_y'] is not None]`
(src/resorts/winter_park/measurer.py line 426). -/
def validSnowLines (samples : List Sample) : List Int :=
  samples.filterMap (fun s => if s.valid then s.snow_line_y else none)

/-- `[s['snow_line_y'] for s in samples if s['snow_line_y'] is not None]`
(src/snowcammeasurement/measurement.py line 674). -/
def candidateSnowLines (samples : List Sample) : List Int :=
  samples.filterMap (fun s => s.snow_line_y)

namespace WinterParkMeasurer

/-- Result record (`WinterParkMeasurement` dataclass,
src/resorts/winter_park/measurer.py lines 17-28). -/
structure WinterParkMeasurement where
  snow_depth_inches : Option Rat
  confidence_score : Rat
  stake_visible : Bool
  snow_line_y : Option Int
  samples : Option (List Sample) := none
  depth_min : Option Rat := none
  depth_max : Option Rat := none
  depth_avg : Option Rat := none
  notes : String := ""
  deriving Repr, DecidableEq

/-- Aggregation tail of `WinterParkMeasurer.detect_snow_line`
(src/resorts/winter_park/measurer.py lines 425-452): median of the valid
snow-line Y positions after IQR outlier rejection.  The per-pixel scanning
loop that produced `samples` is not embedded; this function consumes its
output exactly as the source does. -/
def detect_snow_line_aggregate (samples : List Sample) : Option Int × List Sample :=
  let valid_snow_lines := validSnowLines samples
  if valid_snow_lines.length < 3 then (none, samples)
  else
    let candidates : List Rat := valid_snow_lines.map (fun v => (v : Rat))
    let q1 := percentile candidates 25
    let q3 := percentile candidates 75
    let iqr := max (q3 - q1) 10
    let lower_bound := q1 - 3/2 * iqr
    let upper_bound := q3 + 3/2 * iqr
    let filtered := candidates.filter (fun v => lower_bound ≤ v && v ≤ upper_bound)
    -- Mark outliers (but don't overwrite existing skip reasons like at_base)
    let samples1 := samples.map (fun s =>
      match s.snow_line_y with
      | some v =>
        if !truthyStr s.skip_reason && ((v : Rat) < lower_bound || (v : Rat) > upper_bound) then
          { s with valid := false, skip_reason := some "iqr_outlier" }
        else s
      | none => s)
    let median_y :=
      if filtered.length ≥ 2 then pyInt (npMedian filtered) else pyInt (npMedian candidates)
    (some median_y, samples1)

/-- `WinterParkMeasurer.measure` after snow-line detection
(src/resorts/winter_park/measurer.py lines 516-578): depth of the median
snow-line Y via marker interpolation, per-sample depth min/max/avg, base
clamping, minimum-depth threshold and confidence.  `markers` is the sorted
`(inch, pixel Y)` list (also backing the `marker_positions` dict lookups);
`minDepthThreshold` is `self.min_depth_threshold`. -/
def measure_core (markers : List (Int × Int)) (minDepthThreshold : Rat)
    (detected : Option Int × List Sample) : Except String WinterParkMeasurement := do
  match detected.1 with
  | none =>
    return { snow_depth_inches := none
             confidence_score := 3/10
             stake_visible := true
             snow_line_y := none
             samples := some detected.2
             notes := "Could not detect snow line" }
  | some snowLineY => do
    let samples := detected.2
    let snowDepth0 ← y_to_inches markers snowLineY
    let valid_depths := validDepths samples
    let depth_min := listMin valid_depths
    let depth_max := listMax valid_depths
    let depth_avg := if valid_depths.isEmpty then none else some (listAvg valid_depths)
    -- Base clamping: snow line within ~90% of the 0"-2" pixel span of the 0" marker
    let base_y := (dictGet markers 0).getD 1000
    let two_inch_y := (dictGet markers 2).getD (base_y - 55)
    let base_threshold_pixels := pyInt (((base_y - two_inch_y : Int) : Rat) * (9/10))
    let clamped := snowLineY ≥ base_y - base_threshold_pixels
    let snowDepth1 : Rat := if clamped then 0 else snowDepth0
    let snowLineY1 : Int := if clamped then base_y else snowLineY
    let samples1 :=
      if clamped then
        samples.map (fun s =>
          if truthyInt s.snow_line_y && decide (s.snow_line_y.getD 0 ≥ base_y - base_threshold_pixels) then
            { s with at_base := true, depth_inches := some 0, snow_line_y := some base_y }
          else s)
      else samples
    -- Minimum threshold (but keep 0.0 as valid "no snow" reading)
    let snowDepth2 : Option Rat :=
      if snowDepth1 > 0 && snowDepth1 < minDepthThreshold then none else some snowDepth1
    let confidence0 : Rat := 1/2
    let confidence1 := if valid_depths.length ≥ 5 then confidence0 + 1/5 else confidence0
    let confidence2 := if valid_depths.length ≥ 8 then confidence1 + 1/10 else confidence1
    let confidence3 :=
      if truthyRat depth_max && truthyRat depth_min &&
         decide (depth_max.getD 0 - depth_min.getD 0 < 2) then
        confidence2 + 1/5
      else confidence2
    return { snow_depth_inches := snowDepth2
             confidence_score := min 1 confidence3
             stake_visible := true
             snow_line_y := some snowLineY1
             samples := some samples1
             depth_min := depth_min
             depth_max := depth_max
             depth_avg := depth_avg }

end WinterParkMeasurer

/-- A decoded 3-channel image: rows of (B, G, R) pixel values. -/
def Image : Type := List (List (Rat × Rat × Rat))

/-- Image height (`image.shape[0]`). -/
def Image.height (img : Image) : Nat :=
  List.length img

/-- Image width (`image.shape[1]`; rectangularity is a hypothesis of the
theorems that need it). -/
def Image.width (img : Image) : Nat :=
  (List.headD img []).length

namespace WinterParkMeasurer

/-- The central patch `image[cy-100:cy+100, cx-100:cx+100]` sampled by
`WinterParkMeasurer.is_grayscale_image`
(src/resorts/winter_park/measurer.py lines 487-493), flattened to its
pixels. -/
def central_patch (img : Image) : List (Rat × Rat × Rat) :=
  let cy : Int := (img.height : Int) / 2
  let cx : Int := (img.width : Int) / 2
  let roiRows := pySlice img (cy - 100) (cy + 100)
  let roi := roiRows.map (fun row => pySlice row (cx - 100) (cx + 100))
  roi.foldr (· ++ ·) []

/-- Mean absolute R−B channel difference over the central patch
(`np.abs(r - b).mean()`, src/resorts/winter_park/measurer.py line 498);
`none` when the patch is empty (NumPy yields NaN there). -/
def rb_diff (img : Image) : Option Rat :=
  let pix := central_patch img
  if pix.length = 0 then none
  else some (((pix.map (fun p => |p.2.2 - p.1|)).sum / (pix.length : Rat)))

/-- `WinterParkMeasurer.is_grayscale_image`
(src/resorts/winter_park/measurer.py lines 477-501): mean absolute R−B
channel difference over the central ±100-pixel patch below 5.0.  NumPy's
mean of an empty patch is NaN and `nan < 5.0` is `False`; the
`len(image.shape) < 3` branch is unrepresentable here because `Image` is
always 3-channel. -/
def is_grayscale_image (img : Image) : Bool :=
  match rb_diff img with
  | none => false
  | some d => d < 5

/-- `WinterParkMeasurer.measure` (src/resorts/winter_park/measurer.py lines
503-578).  The per-pixel scanning loop of `detect_snow_line` is abstracted
as `scanned`: the list of per-sample records it produced for this image;
everything after it is embedded (`detect_snow_line_aggregate`,
`measure_core`). -/
def measure (markers : List (Int × Int)) (minDepthThreshold : Rat)
    (img : Image) (scanned : List Sample) : Except String WinterParkMeasurement :=
  if is_grayscale_image img then
    .ok { snow_depth_inches := none
          confidence_score := 0
          stake_visible := true
          snow_line_y := none
          samples := none
          notes := "Skipped: grayscale/night image" }
  else
    measure_core markers minDepthThreshold (detect_snow_line_aggregate scanned)

/-- Outcome of `os.path.exists` + `cv2.imread` in `measure_from_file`. -/
inductive ImageLoad where
  | missing (path : String)
  | unreadable
  | loaded (img : Image)

/-- `WinterParkMeasurer.measure_from_file`
(src/resorts/winter_park/measurer.py lines 454-475). -/
def measure_from_file (markers : List (Int × Int)) (minDepthThreshold : Rat)
    (load : ImageLoad) (scanned : List Sample) : Except String WinterParkMeasurement :=
  match load with
  | .missing path =>
    .ok { snow_depth_inches := none
          confidence_score := 0
          stake_visible := false
          snow_line_y := none
          notes := "Image not found: " ++ path }
  | .unreadable =>
    .ok { snow_depth_inches := none
          confidence_score := 0
          stake_visible := false
          snow_line_y := none
          notes := "Failed to load image" }
  | .loaded img => measure markers minDepthThreshold img scanned

end WinterParkMeasurer

namespace SnowStakeMeasurer

/-- The calibration-dict fields `SnowStakeMeasurer.y_to_inches` and
`measure` read (src/snowcammeasurement/measurement.py).  `none` models an
absent key; marker keys are the parsed integer inch values. -/
structure Calibration where
  reference_y : Option Int := none
  marker_positions : List (Int × Int) := []
  min_depth_threshold : Option Rat := none
  deriving Repr, DecidableEq

/-- `SnowStakeMeasurer.y_to_inches` (src/snowcammeasurement/measurement.py
lines 63-127).  `sortedMarkers` is `self._sorted_markers` (`[]` models the
unset/empty marker dict, which is falsy); `ppi` is
`self.pixels_per_inch`; `cal` is `self.calibration`. -/
def y_to_inches (sortedMarkers : List (Int × Int)) (ppi : Option Rat)
    (cal : Option Calibration) (y : Int) : Except String (Option Rat) := do
  if !sortedMarkers.isEmpty then
    -- Marker interpolation
    let refY ←
      match dictGet sortedMarkers 0 with
      | some v => pure v
      | none => do
        let first ← pyIdx sortedMarkers 0
        pure first.2
    if y ≥ refY then
      return some 0
    else
      let top ← pyIdx sortedMarkers (-1)
      if y ≤ top.2 then
        if sortedMarkers.length ≥ 2 then
          let m2 ← pyIdx sortedMarkers (-2)
          if m2.2 ≠ top.2 then
            let ppiLocal ← pyDiv ((m2.2 - top.2 : Int) : Rat) ((top.1 - m2.1 : Int) : Rat)
            let extraInches ← pyDiv ((top.2 - y : Int) : Rat) ppiLocal
            return some ((top.1 : Rat) + extraInches)
          else
            return some (top.1 : Rat)
        else
          return some (top.1 : Rat)
      else
        let first ← pyIdx sortedMarkers 0
        let lower := ((WinterParkMeasurer.bracketScan y sortedMarkers).map Prod.fst).getD first
        let upper :=
          match WinterParkMeasurer.bracketScan y sortedMarkers with
          | some (_, some u) => u
          | _ => top
        if lower.2 = upper.2 then
          return some (lower.1 : Rat)
        else
          let fraction : Rat := ((lower.2 - y : Int) : Rat) / ((lower.2 - upper.2 : Int) : Rat)
          return some ((lower.1 : Rat) + fraction * ((upper.1 : Rat) - (lower.1 : Rat)))
  else
    -- Fall back to linear calculation
    if truthyRat ppi && cal.isSome then
      let c := cal.getD {}
      let refY : Option Int :=
        match c.reference_y with
        | some r => some r
        | none => dictGet c.marker_positions 0
      if truthyInt refY then
        let dist : Int := refY.getD 0 - y
        if dist > 0 then
          let v ← pyDiv ((dist : Int) : Rat) (ppi.getD 0)
          return some v
        else
          return some 0
      else
        return none
    else
      return none

/-- Resolution of the local `reference_y` at the start of
`SnowStakeMeasurer._detect_snow_line`
(src/snowcammeasurement/measurement.py lines 528-537). -/
def resolve_reference_y (cal : Option Calibration) : Option Int :=
  match cal with
  | none => none
  | some c =>
    match c.reference_y with
    | some r => some r
    | none => dictGet c.marker_positions 0

/-- IQR outlier rejection and median in `SnowStakeMeasurer._detect_snow_line`
(src/snowcammeasurement/measurement.py lines 682-711): with at least 3
candidate snow-line Y positions, mark samples outside
`[Q1 - 1.5·IQR, Q3 + 1.5·IQR]` (IQR floored at 10 px) and take the median
of the in-bounds set, or of all candidates if fewer than 2 remain. -/
def iqr_stage (samples : List Sample) : Option Int × List Sample :=
  let valid_snow_lines := candidateSnowLines samples
  if valid_snow_lines.length ≥ 3 then
    let candidates : List Rat := valid_snow_lines.map (fun v => (v : Rat))
    let q1 := percentile candidates 25
    let q3 := percentile candidates 75
    let effective_iqr := max (q3 - q1) 10
    let lower_bound := q1 - 3/2 * effective_iqr
    let upper_bound := q3 + 3/2 * effective_iqr
    let filtered := candidates.filter (fun v => lower_bound ≤ v && v ≤ upper_bound)
    -- Mark samples that are IQR outliers
    let samples1 := samples.map (fun s =>
      match s.snow_line_y with
      | some v =>
        if (v : Rat) < lower_bound || (v : Rat) > upper_bound then
          { s with iqr_outlier := true
                   valid := false
                   skip_reason :=
                     if truthyStr s.skip_reason then s.skip_reason else some "iqr_outlier" }
        else s
      | none => s)
    let m := if filtered.length ≥ 2 then pyInt (npMedian filtered) else pyInt (npMedian candidates)
    (some m, samples1)
  else (none, samples)

/-- Shallow-snow correction in `SnowStakeMeasurer._detect_snow_line`
(src/snowcammeasurement/measurement.py lines 713-727): when the linear
depth of the median Y is below 2", replace the median snow-line Y with the
center sample's Y (index `10 // 2 = 5`) if that sample is valid, and flag
every other sample `shallow_excluded`. -/
def shallow_stage (referenceY : Option Int) (ppi : Option Rat)
    (median0 : Option Int) (samples1 : List Sample) :
    Except String (Option Int × List Sample) := do
  if truthyInt referenceY && truthyRat ppi && truthyInt median0 then
    let initial_depth ← pyDiv ((referenceY.getD 0 - median0.getD 0 : Int) : Rat) (ppi.getD 0)
    if initial_depth < 2 then
      let center ← pyIdx samples1 5
      if center.snow_line_y.isSome && center.valid then
        let samples2 := samples1.map (fun s =>
          if s.sample_index ≠ 5 then { s with shallow_excluded := true } else s)
        return (center.snow_line_y, samples2)
      else
        return (median0, samples1)
    else
      return (median0, samples1)
  else
    return (median0, samples1)

/-- Aggregation tail of `SnowStakeMeasurer._detect_snow_line`
(src/snowcammeasurement/measurement.py lines 673-728): minimum-sample
check, then IQR outlier rejection and median (`iqr_stage`), then the
shallow-depth center-sample correction (`shallow_stage`).  The per-pixel
scanning loop that produced `samples` is not embedded; `referenceY` and
`ppi` are the values resolved earlier in the function. -/
def detect_snow_line_aggregate (referenceY : Option Int) (ppi : Option Rat)
    (samples : List Sample) : Except String (Option Int × List Sample) := do
  let valid_snow_lines := candidateSnowLines samples
  -- Require minimum 4 valid samples (out of 10) for a reliable measurement
  if valid_snow_lines.length < 4 then
    return (none, samples)
  else
    let step1 := iqr_stage samples
    -- For shallow snow (< 2"), use only the center sample
    shallow_stage referenceY ppi step1.1 step1.2

/-- `SnowStakeMeasurer._calculate_confidence`
(src/snowcammeasurement/measurement.py lines 730-762). -/
def calculate_confidence (stakeLen stakeAngle : Rat) (snowLineY : Option Int) : Rat :=
  let c0 : Rat := 1/2
  let c1 := if stakeLen > 200 then c0 + 1/5 else if stakeLen > 100 then c0 + 1/10 else c0
  let c2 := if stakeAngle < 5 then c1 + 1/5 else if stakeAngle < 10 then c1 + 1/10 else c1
  let c3 := if snowLineY.isSome then c2 + 1/10 else c2
  min 1 c3

/-- Result record (`MeasurementResult` dataclass,
src/snowcammeasurement/measurement.py lines 22-36).  The raw pixel-geometry
fields (`raw_pixel_measurement`, `stake_top_y`, `stake_bottom_y`), which
only echo the abstracted stake line, are omitted. -/
structure MeasurementResult where
  snow_depth_inches : Option Rat
  confidence_score : Rat
  stake_visible : Bool
  snow_line_y : Option Int
  notes : String := ""
  samples : Option (List Sample) := none
  depth_min : Option Rat := none
  depth_max : Option Rat := none
  depth_avg : Option Rat := none
  deriving Repr, DecidableEq

/-- Resolution of `min_depth_threshold` in `SnowStakeMeasurer.measure`
(src/snowcammeasurement/measurement.py lines 330-332): default 1.0,
overridden by the calibration when the key is present. -/
def min_depth_threshold_of (cal : Option Calibration) : Rat :=
  match cal with
  | some c => c.min_depth_threshold.getD 1
  | none => 1

/-- Depth aggregation and result construction in `SnowStakeMeasurer.measure`
after snow-line detection (src/snowcammeasurement/measurement.py lines
283-356): mean of valid sample depths, linear fallback, minimum-depth
threshold, confidence.  `stakeLen`/`stakeAngle` abstract the detected stake
line that only feeds `_calculate_confidence`. -/
def measure_post (cal : Option Calibration) (ppi : Option Rat)
    (stakeLen stakeAngle : Rat) (snowLineY : Option Int)
    (samplesOpt : Option (List Sample)) : Except String MeasurementResult := do
  match snowLineY with
  | none =>
    return { snow_depth_inches := none
             confidence_score := 3/10
             stake_visible := true
             snow_line_y := none
             notes := "Stake detected but snow line unclear"
             samples := samplesOpt }
  | some sy => do
    let samplesTruthy :=
      match samplesOpt with
      | some l => !l.isEmpty
      | none => false
    let valid_depths :=
      if samplesTruthy then validDepths (samplesOpt.getD []) else []
    let depth_min := listMin valid_depths
    let depth_max := listMax valid_depths
    let depth_avg := if valid_depths.isEmpty then none else some (listAvg valid_depths)
    -- Use average of valid samples
    let snowDepth0 : Option Rat := depth_avg
    -- Fallback to old calculation if samples didn't provide depth
    let snowDepth1 : Option Rat ←
      match snowDepth0 with
      | some d => pure (some d)
      | none =>
        if truthyRat ppi then
          match cal with
          | some c =>
            match c.reference_y with
            | some refY =>
              let dist : Int := refY - sy
              if dist > 0 then do
                let v ← pyDiv ((dist : Int) : Rat) (ppi.getD 0)
                pure (some v)
              else
                pure (some 0)
            | none => pure none
          | none => pure none
        else
          pure none
    -- Apply minimum depth threshold (no positivity guard in this measurer)
    let minThresh : Rat := min_depth_threshold_of cal
    let snowDepth2 : Option Rat :=
      match snowDepth1 with
      | some d => if d < minThresh then none else some d
      | none => none
    return { snow_depth_inches := snowDepth2
             confidence_score := calculate_confidence stakeLen stakeAngle (some sy)
             stake_visible := true
             snow_line_y := some sy
             notes := ""
             samples := samplesOpt
             depth_min := depth_min
             depth_max := depth_max
             depth_avg := depth_avg }

/-- Composition of the aggregation tail of `_detect_snow_line` with the
depth aggregation of `measure`, as `measure` executes them once the
per-pixel scanning has produced `scanned`
(src/snowcammeasurement/measurement.py lines 281 and 299-356). -/
def measure_with_samples (cal : Option Calibration) (ppi : Option Rat)
    (stakeLen stakeAngle : Rat) (scanned : List Sample) :
    Except String MeasurementResult := do
  let agg ← detect_snow_line_aggregate (resolve_reference_y cal) ppi scanned
  measure_post cal ppi stakeLen stakeAngle agg.1 (some agg.2)

end SnowStakeMeasurer

/-! ### Helper lemmas about the Python-semantics primitives -/

theorem except_bind_ok {ε α β : Type} (a : α) (f : α → Except ε β) :
    (Except.ok a >>= f : Except ε β) = f a := rfl

theorem pyIdx_ok {α : Type} (l : List α) (i : Int) (k : Nat) (hk : k < l.length)
    (hik : (if i < 0 then i + l.length else i) = (k : Int)) :
    pyIdx l i = .ok (l.get ⟨k, hk⟩) := by
  simp only [pyIdx, hik]
  rw [dif_pos ⟨by omega, by simpa using hk⟩]
  simp

theorem pyIdx_zero {α : Type} (x : α) (xs : List α) : pyIdx (x :: xs) 0 = .ok x := by
  simp [pyIdx]

theorem pyIdx_neg_one {α : Type} (l : List α) (h : l ≠ []) :
    pyIdx l (-1) = .ok (l.getLast h) := by
  have hlen : 1 ≤ l.length := List.length_pos.mpr h
  rw [List.getLast_eq_get]
  exact pyIdx_ok l (-1) (l.length - 1) (by omega) (by rw [if_pos (by omega)]; omega)

theorem pyIdx_neg_two {α : Type} (l : List α) (h : 2 ≤ l.length) :
    pyIdx l (-2) = .ok (l.get ⟨l.length - 2, by omega⟩) :=
  pyIdx_ok l (-2) (l.length - 2) (by omega) (by rw [if_pos (by omega)]; omega)

theorem bracketScan_cons_of_ge (y : Int) (m : Int × Int) (rest : List (Int × Int))
    (h : m.2 ≥ y) :
    WinterParkMeasurer.bracketScan y (m :: rest) = some (m, rest.head?) := by
  simp [WinterParkMeasurer.bracketScan, h]

/-! ### Concrete calibrations used in counterexamples and witnesses -/

/-- The spec's synthetic calibration: markers at y = 1000, 900, …, 200 for
inches 0, 2, …, 16 (sorted ascending by inch value, as the constructor
stores them). -/
def syntheticMarkers : List (Int × Int) :=
  [(0, 1000), (2, 900), (4, 800), (6, 700), (8, 600), (10, 500), (12, 400), (14, 300), (16, 200)]

/-- A non-uniformly spaced (but sorted and strictly descending) marker set:
the pixel gap grows from 100 px to 200 px per 2". -/
def nonUniformMarkers : List (Int × Int) :=
  [(0, 1000), (2, 900), (4, 700), (6, 500)]

/-! ### Claim C1 -/

/-- Claim C1 (counterexample): the claim asserts
`y_to_inches(850) == 6.25` for the synthetic markers, but the code returns
3.0 — the bracketing loop breaks at the first marker scanned from the base
(the 0" marker, whose pixel Y always satisfies `marker_y >= y` in the
interpolation branch), so the interpolation always uses the first two
markers, giving `0 + (1000-850)/(1000-900) · (2-0) = 3.0`. -/
theorem C1_counterexample :
    WinterParkMeasurer.y_to_inches syntheticMarkers 850 = .ok 3 ∧ (3 : Rat) ≠ 25 / 4 := by
  constructor
  · with_unfolding_all rfl
  · norm_num

/-- Claim C1 (amended): for every calibration whose sorted markers bracket
the pixel position `y` (strictly between the base marker's and the top
marker's pixel Y), the returned depth equals
`inch_low + (y_low − y)/(y_low − y_high) · (inch_high − inch_low)` where
`(inch_low, y_low)` is the FIRST marker in base-to-top scan order with
`y_low ≥ y` — which, because every marker below the top has pixel Y above
`y` ≥ the top marker's Y... in the interpolation branch this is always the
first (base) marker — and `(inch_high, y_high)` is the next marker.  In
particular, with the synthetic markers, `y_to_inches(850) = 3.0`. -/
theorem C1_interpolation_formula (i0 y0 i1 y1 : Int) (rest : List (Int × Int)) (y : Int)
    (hy0 : y < y0)
    (hlast : (((i0, y0) :: (i1, y1) :: rest).getLast (by simp)).2 < y)
    (hne : y0 ≠ y1) :
    WinterParkMeasurer.y_to_inches ((i0, y0) :: (i1, y1) :: rest) y =
      .ok ((i0 : Rat) + ((y0 - y : Int) : Rat) / ((y0 - y1 : Int) : Rat) * ((i1 : Rat) - (i0 : Rat))) := by
  have hne' : ((i0, y0) :: (i1, y1) :: rest : List (Int × Int)) ≠ [] := by simp
  rw [WinterParkMeasurer.y_to_inches, pyIdx_neg_one _ hne', except_bind_ok]
  rw [if_neg (by omega : ¬ y ≤ ((((i0, y0) :: (i1, y1) :: rest).getLast hne')).2)]
  rw [pyIdx_zero, except_bind_ok]
  rw [if_neg (by simp; omega : ¬ y ≥ ((i0, y0) : Int × Int).2)]
  rw [bracketScan_cons_of_ge y (i0, y0) _ (by simp; omega)]
  simp only [List.head?_cons]
  rw [if_neg (by simpa using hne)]
  rfl

/-- Witness for C1: the amended formula instantiated at the synthetic
markers and y = 850 yields 3.0. -/
theorem C1_interpolation_formula_witness :
    WinterParkMeasurer.y_to_inches ((0, 1000) :: (2, 900) ::
        [(4, 800), (6, 700), (8, 600), (10, 500), (12, 400), (14, 300), (16, 200)]) 850 =
      .ok ((0 : Rat) + ((1000 - 850 : Int) : Rat) / ((1000 - 900 : Int) : Rat) * ((2 : Rat) - (0 : Rat))) :=
  C1_interpolation_formula 0 1000 2 900
    [(4, 800), (6, 700), (8, 600), (10, 500), (12, 400), (14, 300), (16, 200)] 850
    (by decide) (by decide) (by decide)

/-! ### Claim C2 -/

/-- A detection sample with a snow line at `y`, depth `d`, marked valid. -/
def sampleAt (i y : Int) (d : Rat) : Sample :=
  { sample_index := i, snow_line_y := some y, depth_inches := some d, valid := true,
    skip_reason := none }

/-- A 1×1 colour image (pure red pixel): R−B mean difference 255, so it is
not classified as grayscale. -/
def colorPixelImage : Image := [[((0 : Rat), (0 : Rat), (255 : Rat))]]

/-- A 1×1 black image: R−B mean difference 0, classified as grayscale. -/
def grayPixelImage : Image := [[((0 : Rat), (0 : Rat), (0 : Rat))]]

/-- Four valid samples for the synthetic calibration (depths are
`y_to_inches` of their snow lines). -/
def scanC2 : List Sample := [sampleAt 0 700 6, sampleAt 1 800 4, sampleAt 2 850 3, sampleAt 3 900 2]

/-- Claim C2 (counterexample): the marker-based measurer does NOT report the
mean of the valid samples' depths.  With the synthetic calibration and four
valid samples at y = 700, 800, 850, 900 (depths 6, 4, 3, 2), the median
snow-line Y is 825 and the reported `snow_depth_inches` is
`y_to_inches(825) = 3.5`, while the mean of the per-sample depths (reported
as `depth_avg`) is 3.75. -/
theorem C2_counterexample :
    (WinterParkMeasurer.measure syntheticMarkers 1 colorPixelImage scanC2).map
        (fun r => (r.snow_depth_inches, r.depth_avg)) = .ok (some (7/2), some (15/4)) ∧
      (7/2 : Rat) ≠ 15/4 := by
  constructor
  · with_unfolding_all rfl
  · norm_num

/-- Claim C2 (amended): the LINEAR measurer (`SnowStakeMeasurer.measure`)
reports the arithmetic mean of the valid samples' depths (when some valid
sample has a depth and the mean survives the minimum-depth threshold), with
`depth_min`/`depth_max`/`depth_avg` the min/max/mean of those same
per-sample depths; the MARKER-BASED measurer (`WinterParkMeasurer.measure`)
instead reports the depth obtained by converting the median snow-line Y
(`y_to_inches(median)`), while its `depth_min`/`depth_max`/`depth_avg` are
still computed from the per-sample depths. -/
theorem C2_aggregate_depth_sources :
    (∀ (cal : Option SnowStakeMeasurer.Calibration) (ppi : Option Rat)
        (stakeLen stakeAngle : Rat) (sy : Int) (samples : List Sample),
        validDepths samples ≠ [] →
        ¬ listAvg (validDepths samples) < SnowStakeMeasurer.min_depth_threshold_of cal →
        (SnowStakeMeasurer.measure_post cal ppi stakeLen stakeAngle (some sy)
            (some samples)).map
            (fun r => (r.snow_depth_inches, r.depth_min, r.depth_max, r.depth_avg)) =
          .ok (some (listAvg (validDepths samples)), listMin (validDepths samples),
               listMax (validDepths samples), some (listAvg (validDepths samples))))
    ∧ (∀ (markers : List (Int × Int)) (thresh : Rat) (sy : Int) (samples : List Sample) (d : Rat),
        WinterParkMeasurer.y_to_inches markers sy = .ok d →
        sy < (dictGet markers 0).getD 1000 -
            pyInt ((((dictGet markers 0).getD 1000 -
              (dictGet markers 2).getD ((dictGet markers 0).getD 1000 - 55) : Int) : Rat) * (9/10)) →
        ¬ (d > 0 ∧ d < thresh) →
        (WinterParkMeasurer.measure_core markers thresh (some sy, samples)).map
            (fun r => (r.snow_depth_inches, r.depth_min, r.depth_max, r.depth_avg)) =
          .ok (some d, listMin (validDepths samples), listMax (validDepths samples),
               if (validDepths samples).isEmpty then none else some (listAvg (validDepths samples)))) := by
  constructor
  · intro cal ppi stakeLen stakeAngle sy samples hV hT
    have hs : samples.isEmpty = false := by
      cases samples with
      | nil => exact absurd rfl hV
      | cons a l => rfl
    have hVe : (validDepths samples).isEmpty = false := by
      simpa [List.isEmpty_iff] using hV
    simp only [SnowStakeMeasurer.measure_post, hs, hVe, Bool.not_false, if_true,
      Option.getD_some, Bool.false_eq_true, ite_false, ite_true,
      bind, Except.bind, pure, Except.pure, Except.map]
    rw [if_neg hT]
  · intro markers thresh sy samples d hd hclamp hT
    simp only [WinterParkMeasurer.measure_core, hd, except_bind_ok]
    rw [if_neg (by omega : ¬ sy ≥ (dictGet markers 0).getD 1000 -
      pyInt ((((dictGet markers 0).getD 1000 -
        (dictGet markers 2).getD ((dictGet markers 0).getD 1000 - 55) : Int) : Rat) * (9/10)))]
    have hb : (decide (d > 0) && decide (d < thresh)) = false := by
      by_cases h0 : d > 0
      · have h1 : ¬ d < thresh := fun h => hT ⟨h0, h⟩
        simp [h1]
      · simp [h0]
    rw [if_neg (by simpa using hT)]
    rfl

/-- Witness for C2: the amended statement instantiated with a concrete
calibration and sample list on both sides. -/
theorem C2_aggregate_depth_sources_witness :
    (SnowStakeMeasurer.measure_post (some { reference_y := some 1000 }) (some 10) 250 0
        (some 825) (some scanC2)).map
        (fun r => (r.snow_depth_inches, r.depth_min, r.depth_max, r.depth_avg)) =
      .ok (some (listAvg (validDepths scanC2)), listMin (validDepths scanC2),
           listMax (validDepths scanC2), some (listAvg (validDepths scanC2))) ∧
    (WinterParkMeasurer.measure_core syntheticMarkers 1 (some 825, scanC2)).map
        (fun r => (r.snow_depth_inches, r.depth_min, r.depth_max, r.depth_avg)) =
      .ok (some (7/2), listMin (validDepths scanC2), listMax (validDepths scanC2),
           if (validDepths scanC2).isEmpty then none else some (listAvg (validDepths scanC2))) := by
  constructor
  · exact C2_aggregate_depth_sources.1 (some { reference_y := some 1000 }) (some 10) 250 0 825
      scanC2 (by with_unfolding_all decide) (by with_unfolding_all decide)
  · exact C2_aggregate_depth_sources.2 syntheticMarkers 1 825 scanC2 (7/2)
      (by with_unfolding_all rfl) (by with_unfolding_all decide) (by with_unfolding_all decide)

/-! ### Claim C3 -/

/-- Ten valid samples whose snow lines sit exactly at the linear reference
(y = 1000), each with depth 0 — an aggregate of exactly 0.0. -/
def scanC3 : List Sample :=
  [sampleAt 0 1000 0, sampleAt 1 1000 0, sampleAt 2 1000 0, sampleAt 3 1000 0, sampleAt 4 1000 0,
   sampleAt 5 1000 0, sampleAt 6 1000 0, sampleAt 7 1000 0, sampleAt 8 1000 0, sampleAt 9 1000 0]

/-- A linear calibration with `reference_y = 1000` and the default
`min_depth_threshold` of 1.0. -/
def calLinear : SnowStakeMeasurer.Calibration := { reference_y := some 1000 }

/-- Claim C3 (counterexample): in the LINEAR measurer an aggregate depth of
exactly 0.0 is NOT preserved: its threshold check
`if snow_depth_inches < min_depth_threshold` has no positivity guard, so
the exact-zero aggregate (`depth_avg = 0`) is reported as `None`. -/
theorem C3_counterexample :
    (SnowStakeMeasurer.measure_with_samples (some calLinear) (some 10) 250 0 scanC3).map
      (fun r => (r.snow_depth_inches, r.depth_avg)) = .ok (none, some 0) := by
  with_unfolding_all rfl

/-- Claim C3 (amended): a strictly positive aggregate below
`min_depth_threshold` is reported as `None` in both measurers; an aggregate
of exactly 0.0 produced by base clamping is preserved as 0.0 by the
MARKER-BASED measurer (its check requires `snow_depth > 0`), but the LINEAR
measurer reports `None` for an exact 0.0 aggregate as well (its check is
`snow_depth < threshold` with no positivity guard). -/
theorem C3_threshold_policy :
    (∀ (markers : List (Int × Int)) (thresh : Rat) (sy : Int) (samples : List Sample) (d : Rat),
        WinterParkMeasurer.y_to_inches markers sy = .ok d →
        sy ≥ (dictGet markers 0).getD 1000 -
            pyInt ((((dictGet markers 0).getD 1000 -
              (dictGet markers 2).getD ((dictGet markers 0).getD 1000 - 55) : Int) : Rat) * (9/10)) →
        (WinterParkMeasurer.measure_core markers thresh (some sy, samples)).map
          (fun r => r.snow_depth_inches) = .ok (some 0))
    ∧ (∀ (markers : List (Int × Int)) (thresh : Rat) (sy : Int) (samples : List Sample) (d : Rat),
        WinterParkMeasurer.y_to_inches markers sy = .ok d →
        ¬ sy ≥ (dictGet markers 0).getD 1000 -
            pyInt ((((dictGet markers 0).getD 1000 -
              (dictGet markers 2).getD ((dictGet markers 0).getD 1000 - 55) : Int) : Rat) * (9/10)) →
        0 < d → d < thresh →
        (WinterParkMeasurer.measure_core markers thresh (some sy, samples)).map
          (fun r => r.snow_depth_inches) = .ok none)
    ∧ (∀ (cal : Option SnowStakeMeasurer.Calibration) (ppi : Option Rat)
        (stakeLen stakeAngle : Rat) (sy : Int) (samples : List Sample),
        validDepths samples ≠ [] →
        listAvg (validDepths samples) < SnowStakeMeasurer.min_depth_threshold_of cal →
        (SnowStakeMeasurer.measure_post cal ppi stakeLen stakeAngle (some sy)
          (some samples)).map (fun r => r.snow_depth_inches) = .ok none) := by
  refine ⟨?_, ?_, ?_⟩
  · intro markers thresh sy samples d hd hclamp
    simp only [WinterParkMeasurer.measure_core, hd, except_bind_ok]
    rw [if_pos hclamp]
    simp [Except.map, pure, Except.pure]
  · intro markers thresh sy samples d hd hclamp h0 hthr
    simp only [WinterParkMeasurer.measure_core, hd, except_bind_ok]
    rw [if_neg hclamp]
    rw [if_pos (by simp [h0, hthr])]
    rfl
  · intro cal ppi stakeLen stakeAngle sy samples hV hT
    have hs : samples.isEmpty = false := by
      cases samples with
      | nil => exact absurd rfl hV
      | cons a l => rfl
    have hVe : (validDepths samples).isEmpty = false := by
      simpa [List.isEmpty_iff] using hV
    simp only [SnowStakeMeasurer.measure_post, hs, hVe, Bool.not_false, if_true,
      Option.getD_some, Bool.false_eq_true, ite_false, ite_true,
      bind, Except.bind, pure, Except.pure, Except.map]
    rw [if_pos hT]

/-- Witness for C3: the three amended statements instantiated concretely —
base-clamped zero preserved by the marker measurer; a 0.6" reading nulled
by the marker measurer; the zero aggregate nulled by the linear measurer. -/
theorem C3_threshold_policy_witness :
    (WinterParkMeasurer.measure_core syntheticMarkers 1 (some 950, scanC3)).map
        (fun r => r.snow_depth_inches) = .ok (some 0) ∧
    (WinterParkMeasurer.measure_core syntheticMarkers 5 (some 850, [])).map
        (fun r => r.snow_depth_inches) = .ok none ∧
    (SnowStakeMeasurer.measure_post (some calLinear) (some 10) 250 0 (some 1000)
        (some scanC3)).map (fun r => r.snow_depth_inches) = .ok none := by
  refine ⟨?_, ?_, ?_⟩
  · exact C3_threshold_policy.1 syntheticMarkers 1 950 scanC3 1 (by with_unfolding_all rfl)
      (by with_unfolding_all decide)
  · exact C3_threshold_policy.2.1 syntheticMarkers 5 850 [] 3 (by with_unfolding_all rfl)
      (by with_unfolding_all decide) (by norm_num) (by norm_num)
  · exact C3_threshold_policy.2.2 (some calLinear) (some 10) 250 0 1000 scanC3
      (by with_unfolding_all decide) (by with_unfolding_all decide)

/-! ### Claim C4 -/

/-- Claim C4 (confirmed): with fewer than 3 (marker-based measurer) or 4
(linear measurer) samples carrying a valid detected snow line, the
measurement reports failure — `snow_depth_inches = None`, no computed
depth fields — while the per-sample diagnostic list is still returned
unchanged. -/
theorem C4_min_valid_samples :
    (∀ (markers : List (Int × Int)) (thresh : Rat) (img : Image) (scanned : List Sample),
        WinterParkMeasurer.is_grayscale_image img = false →
        (validSnowLines scanned).length < 3 →
        WinterParkMeasurer.measure markers thresh img scanned = .ok
          { snow_depth_inches := none, confidence_score := 3/10, stake_visible := true,
            snow_line_y := none, samples := some scanned,
            notes := "Could not detect snow line" })
    ∧ (∀ (cal : Option SnowStakeMeasurer.Calibration) (ppi : Option Rat)
        (stakeLen stakeAngle : Rat) (scanned : List Sample),
        (candidateSnowLines scanned).length < 4 →
        SnowStakeMeasurer.measure_with_samples cal ppi stakeLen stakeAngle scanned = .ok
          { snow_depth_inches := none, confidence_score := 3/10, stake_visible := true,
            snow_line_y := none, notes := "Stake detected but snow line unclear",
            samples := some scanned }) := by
  constructor
  · intro markers thresh img scanned hgray hcount
    rw [WinterParkMeasurer.measure, if_neg (by simp [hgray])]
    rw [WinterParkMeasurer.detect_snow_line_aggregate, if_pos hcount]
    rfl
  · intro cal ppi stakeLen stakeAngle scanned hcount
    rw [SnowStakeMeasurer.measure_with_samples, SnowStakeMeasurer.detect_snow_line_aggregate,
      if_pos hcount]
    rfl

/-- Witness for C4: both measurers applied to an empty scan list (0 valid
snow lines) report the failure result with the sample list echoed back. -/
theorem C4_min_valid_samples_witness :
    WinterParkMeasurer.measure syntheticMarkers 1 colorPixelImage [] = .ok
      { snow_depth_inches := none, confidence_score := 3/10, stake_visible := true,
        snow_line_y := none, samples := some [], notes := "Could not detect snow line" } ∧
    SnowStakeMeasurer.measure_with_samples (some calLinear) (some 10) 250 0 [] = .ok
      { snow_depth_inches := none, confidence_score := 3/10, stake_visible := true,
        snow_line_y := none, notes := "Stake detected but snow line unclear",
        samples := some [] } := by
  constructor
  · exact C4_min_valid_samples.1 syntheticMarkers 1 colorPixelImage []
      (by with_unfolding_all rfl) (by decide)
  · exact C4_min_valid_samples.2 (some calLinear) (some 10) 250 0 [] (by decide)

/-! ### Claim C5 -/

/-- Candidate snow-line Y values as rationals (as NumPy receives them). -/
def candidateRats (ys : List Int) : List Rat :=
  ys.map (fun v => (v : Rat))

/-- Spec-side description for claim C5: the outlier bounds
`(Q1 − 1.5·IQR, Q3 + 1.5·IQR)` with the effective IQR `max(Q3 − Q1, 10)`. -/
def iqrBounds (C : List Rat) : Rat × Rat :=
  (percentile C 25 - 3/2 * max (percentile C 75 - percentile C 25) 10,
   percentile C 75 + 3/2 * max (percentile C 75 - percentile C 25) 10)

/-- Spec-side description for claim C5: the candidates inside the IQR
bounds. -/
def inBounds (C : List Rat) : List Rat :=
  C.filter (fun v => (iqrBounds C).1 ≤ v && v ≤ (iqrBounds C).2)

/-- Spec-side description for claim C5: the median snow-line Y — the median
of the in-bounds set, or of all candidates if fewer than 2 remain in
bounds (truncated to int as `int(np.median(...))`). -/
def iqrMedianY (C : List Rat) : Int :=
  if 2 ≤ (inBounds C).length then pyInt (npMedian (inBounds C)) else pyInt (npMedian C)

/-- Three samples (the linear measurer's minimum is four): a cluster at
y = 100, 110 and a distant value at y = 500. -/
def scanC5 : List Sample := [sampleAt 0 100 5, sampleAt 1 110 5, sampleAt 2 500 1]

/-- Claim C5 (counterexample): the linear measurer's aggregator does NOT
run outlier rejection for every set of at least 3 valid snow-line Y
positions — with exactly 3 it bails out (its minimum is 4), returning no
median and the sample list unchanged (nothing marked `iqr_outlier`). -/
theorem C5_counterexample :
    (candidateSnowLines scanC5).length = 3 ∧
    SnowStakeMeasurer.detect_snow_line_aggregate (some 1000) (some 10) scanC5 =
      .ok (none, scanC5) := by
  constructor
  · rfl
  · with_unfolding_all rfl

/-- Claim C5 (amended): the IQR rejection runs as described for the
marker-based aggregator with at least 3 valid positions, and for the linear
aggregator only with at least 4 candidate positions (below 4 it reports
failure before any outlier marking).  Both compute Q1/Q3, effective
IQR = max(Q3−Q1, 10 px), bounds Q1 − 1.5·IQR to Q3 + 1.5·IQR, mark samples
outside the bounds invalid with skip reason `iqr_outlier` — the
marker-based aggregator skips samples already carrying a truthy skip reason
(`at_base` is never overwritten), while the linear aggregator (whose
samples cannot carry a skip reason and a snow line simultaneously) also
re-marks validity — and the median snow-line Y is the median of the
in-bounds set, or of all candidates if fewer than 2 remain (the linear
aggregator's median may subsequently be replaced by the shallow-depth
correction; `ppi = none` here disables it). -/
theorem C5_iqr_rejection :
    (∀ samples : List Sample, 3 ≤ (validSnowLines samples).length →
      WinterParkMeasurer.detect_snow_line_aggregate samples =
        (some (iqrMedianY (candidateRats (validSnowLines samples))),
         samples.map (fun s =>
           match s.snow_line_y with
           | some v =>
             if truthyStr s.skip_reason = false ∧
                ((v : Rat) < (iqrBounds (candidateRats (validSnowLines samples))).1 ∨
                 (iqrBounds (candidateRats (validSnowLines samples))).2 < (v : Rat)) then
               { s with valid := false, skip_reason := some "iqr_outlier" }
             else s
           | none => s)))
    ∧ (∀ (refY : Option Int) (samples : List Sample),
        4 ≤ (candidateSnowLines samples).length →
        (∀ s ∈ samples, s.snow_line_y.isSome → s.skip_reason = none) →
        SnowStakeMeasurer.detect_snow_line_aggregate refY none samples =
          .ok (some (iqrMedianY (candidateRats (candidateSnowLines samples))),
            samples.map (fun s =>
              match s.snow_line_y with
              | some v =>
                if (v : Rat) < (iqrBounds (candidateRats (candidateSnowLines samples))).1 ∨
                   (iqrBounds (candidateRats (candidateSnowLines samples))).2 < (v : Rat) then
                  { s with iqr_outlier := true, valid := false,
                           skip_reason := some "iqr_outlier" }
                else s
              | none => s))) := by
  constructor
  · intro samples hcount
    rw [WinterParkMeasurer.detect_snow_line_aggregate, if_neg (by omega)]
    refine Prod.ext rfl ?_
    refine List.map_congr_left ?_
    intro s hs
    cases hsy : s.snow_line_y with
    | none => rfl
    | some v =>
      dsimp only
      simp only [iqrBounds, candidateRats, Bool.and_eq_true, Bool.or_eq_true,
        decide_eq_true_eq, Bool.not_eq_true', gt_iff_lt]
  · intro refY samples hcount hinv
    rw [SnowStakeMeasurer.detect_snow_line_aggregate, if_neg (by omega)]
    have hgate : (truthyInt refY && truthyRat none && truthyInt (SnowStakeMeasurer.iqr_stage samples).1) = false := by
      simp [truthyRat]
    rw [SnowStakeMeasurer.shallow_stage, if_neg (by simp [truthyRat])]
    rw [SnowStakeMeasurer.iqr_stage, if_pos (by omega : (candidateSnowLines samples).length ≥ 3)]
    refine congrArg Except.ok (Prod.ext rfl ?_)
    refine List.map_congr_left ?_
    intro s hs
    cases hsy : s.snow_line_y with
    | none => rfl
    | some v =>
      have hskip : s.skip_reason = none := hinv s hs (by simp [hsy])
      dsimp only
      simp only [iqrBounds, candidateRats, Bool.or_eq_true, decide_eq_true_eq,
        gt_iff_lt, hskip, truthyStr, Bool.false_eq_true, if_false]

/-- Eight clustered samples (y = 500…514) plus one far outlier (y = 900)
for the marker-based aggregator. -/
def scanC5wp : List Sample :=
  [sampleAt 0 500 10, sampleAt 1 502 10, sampleAt 2 504 10, sampleAt 3 506 10,
   sampleAt 4 508 10, sampleAt 5 510 10, sampleAt 6 512 10, sampleAt 7 514 10,
   sampleAt 8 900 2]

/-- A tight cluster (y = 100, 100, 100) plus one outlier (y = 140) for the
linear aggregator: the 10-px IQR floor makes the bounds [85, 125]. -/
def scanC5ss : List Sample :=
  [sampleAt 0 100 9, sampleAt 1 100 9, sampleAt 2 100 9, sampleAt 3 140 5]

/-- Witness for C5: the amended IQR statement instantiated at concrete
scans on both sides. -/
theorem C5_iqr_rejection_witness :
    WinterParkMeasurer.detect_snow_line_aggregate scanC5wp =
      (some (iqrMedianY (candidateRats (validSnowLines scanC5wp))),
       scanC5wp.map (fun s =>
         match s.snow_line_y with
         | some v =>
           if truthyStr s.skip_reason = false ∧
              ((v : Rat) < (iqrBounds (candidateRats (validSnowLines scanC5wp))).1 ∨
               (iqrBounds (candidateRats (validSnowLines scanC5wp))).2 < (v : Rat)) then
             { s with valid := false, skip_reason := some "iqr_outlier" }
           else s
         | none => s)) ∧
    SnowStakeMeasurer.detect_snow_line_aggregate (some 1000) none scanC5ss =
      .ok (some (iqrMedianY (candidateRats (candidateSnowLines scanC5ss))),
        scanC5ss.map (fun s =>
          match s.snow_line_y with
          | some v =>
            if (v : Rat) < (iqrBounds (candidateRats (candidateSnowLines scanC5ss))).1 ∨
               (iqrBounds (candidateRats (candidateSnowLines scanC5ss))).2 < (v : Rat) then
              { s with iqr_outlier := true, valid := false,
                       skip_reason := some "iqr_outlier" }
            else s
          | none => s)) := by
  constructor
  · exact C5_iqr_rejection.1 scanC5wp (by decide)
  · exact C5_iqr_rejection.2 (some 1000) scanC5ss (by decide) (by decide)

/-! ### Claim C6 -/

/-- Ten valid samples with snow lines y = 990, 988, …, 972 and linear
depths 1.0, 1.2, …, 2.8 for `reference_y = 1000`, `ppi = 10`: the median Y
is 981, giving a provisional depth of 1.9 < 2.0 (shallow), and the center
sample (index 5) sits at y = 980 with depth 2.0. -/
def scanC6 : List Sample :=
  [sampleAt 0 990 1, sampleAt 1 988 (6/5), sampleAt 2 986 (7/5), sampleAt 3 984 (8/5),
   sampleAt 4 982 (9/5), sampleAt 5 980 2, sampleAt 6 978 (11/5), sampleAt 7 976 (12/5),
   sampleAt 8 974 (13/5), sampleAt 9 972 (14/5)]

/-- Claim C6 (counterexample): when the shallow-depth correction fires
(aggregate 1.9 < 2.0, center sample valid), the reported depth is still the
multi-sample mean 1.9 — only the reported median snow-line Y is replaced by
the center sample's Y (980) — while the claim asserts the reported depth
becomes the center sample's depth 2.0. -/
theorem C6_counterexample :
    (SnowStakeMeasurer.measure_with_samples (some calLinear) (some 10) 250 0 scanC6).map
        (fun r => (r.snow_depth_inches, r.snow_line_y)) = .ok (some (19/10), some 980) ∧
    (scanC6.get ⟨5, by decide⟩).depth_inches = some 2 ∧
    (19/10 : Rat) < 2 ∧ (19/10 : Rat) ≠ 2 := by
  refine ⟨?_, rfl, by norm_num, by norm_num⟩
  with_unfolding_all rfl

/-- Claim C6 (amended): the shallow-depth correction (linear measurer only)
replaces the reported median snow-line Y — not the reported depth — with
the center sample's snow-line Y when the provisional linear depth
`(reference_y − median_y)/ppi` is below 2.0 and the center sample (index 5)
is valid; every non-center sample is flagged `shallow_excluded` with its
validity, depth and snow line otherwise unchanged, and the reported
`snow_depth_inches` remains the arithmetic mean of the valid samples'
depths. -/
theorem C6_shallow_correction :
    (∀ (refv m : Int) (p : Rat) (samples1 : List Sample) (c : Sample),
        refv ≠ 0 → p ≠ 0 → m ≠ 0 →
        ((refv - m : Int) : Rat) / p < 2 →
        pyIdx samples1 5 = .ok c →
        c.snow_line_y.isSome = true → c.valid = true →
        SnowStakeMeasurer.shallow_stage (some refv) (some p) (some m) samples1 =
          .ok (c.snow_line_y, samples1.map (fun s =>
            if s.sample_index ≠ 5 then { s with shallow_excluded := true } else s)))
    ∧ (∀ samples1 : List Sample,
        validDepths (samples1.map (fun s =>
          if s.sample_index ≠ 5 then { s with shallow_excluded := true } else s)) =
          validDepths samples1)
    ∧ (∀ (cal : Option SnowStakeMeasurer.Calibration) (ppi : Option Rat)
        (stakeLen stakeAngle : Rat) (cy : Int) (samples2 : List Sample),
        validDepths samples2 ≠ [] →
        ¬ listAvg (validDepths samples2) < SnowStakeMeasurer.min_depth_threshold_of cal →
        (SnowStakeMeasurer.measure_post cal ppi stakeLen stakeAngle (some cy)
          (some samples2)).map (fun r => r.snow_depth_inches) =
          .ok (some (listAvg (validDepths samples2)))) := by
  refine ⟨?_, ?_, ?_⟩
  · intro refv m p samples1 c href hp hm hdepth hidx hcy hcv
    rw [SnowStakeMeasurer.shallow_stage]
    rw [if_pos (by simp [truthyInt, truthyRat, href, hp, hm])]
    rw [show pyDiv ((some refv).getD 0 - (some m).getD 0 : Int) ((some p).getD 0) =
        .ok (((refv - m : Int) : Rat) / p) from by simp [pyDiv, hp]]
    rw [except_bind_ok]
    rw [if_pos hdepth]
    rw [hidx, except_bind_ok]
    rw [if_pos (by simp [hcy, hcv])]
    rfl
  · intro samples1
    rw [validDepths, validDepths, List.filterMap_map]
    refine List.filterMap_congr ?_
    intro s hs
    by_cases h : s.sample_index ≠ 5 <;> simp [Function.comp, h]
  · intro cal ppi stakeLen stakeAngle cy samples2 hV hT
    have hs : samples2.isEmpty = false := by
      cases samples2 with
      | nil => exact absurd rfl hV
      | cons a l => rfl
    have hVe : (validDepths samples2).isEmpty = false := by
      simpa [List.isEmpty_iff] using hV
    simp only [SnowStakeMeasurer.measure_post, hs, hVe, Bool.not_false, if_true,
      Option.getD_some, Bool.false_eq_true, ite_false, ite_true,
      bind, Except.bind, pure, Except.pure, Except.map]
    rw [if_neg hT]

/-- Witness for C6: the amended statement instantiated on the shallow
scenario (`reference_y = 1000`, `ppi = 10`, median 981, center sample at
y = 980, depth 2.0). -/
theorem C6_shallow_correction_witness :
    SnowStakeMeasurer.shallow_stage (some 1000) (some 10) (some 981) scanC6 =
      .ok ((scanC6.get ⟨5, by decide⟩).snow_line_y, scanC6.map (fun s =>
        if s.sample_index ≠ 5 then { s with shallow_excluded := true } else s)) ∧
    validDepths (scanC6.map (fun s =>
      if s.sample_index ≠ 5 then { s with shallow_excluded := true } else s)) =
      validDepths scanC6 ∧
    (SnowStakeMeasurer.measure_post (some calLinear) (some 10) 250 0 (some 980)
      (some scanC6)).map (fun r => r.snow_depth_inches) =
      .ok (some (listAvg (validDepths scanC6))) := by
  refine ⟨?_, ?_, ?_⟩
  · exact C6_shallow_correction.1 1000 981 10 scanC6 (scanC6.get ⟨5, by decide⟩)
      (by decide) (by norm_num) (by decide) (by norm_num) (by with_unfolding_all rfl)
      (by decide) (by decide)
  · exact C6_shallow_correction.2.1 scanC6
  · exact C6_shallow_correction.2.2 (some calLinear) (some 10) 250 0 980 scanC6
      (by with_unfolding_all decide) (by with_unfolding_all decide)

/-! ### Claim C7 -/

/-- Claim C7 (confirmed): an image whose mean absolute R−B difference over
the central patch is below 5.0 short-circuits the marker-based measurer —
for every possible scanning outcome the result is depth `None`, confidence
0.0, notes `"Skipped: grayscale/night image"` (and no samples), showing the
return happens before any sample scanning is consulted. -/
theorem C7_grayscale_rejection :
    ∀ (markers : List (Int × Int)) (thresh : Rat) (img : Image) (scanned : List Sample) (d : Rat),
      WinterParkMeasurer.rb_diff img = some d → d < 5 →
      WinterParkMeasurer.measure markers thresh img scanned = .ok
        { snow_depth_inches := none, confidence_score := 0, stake_visible := true,
          snow_line_y := none, samples := none, notes := "Skipped: grayscale/night image" } := by
  intro markers thresh img scanned d hdiff hlt
  rw [WinterParkMeasurer.measure, if_pos]
  rw [WinterParkMeasurer.is_grayscale_image, hdiff]
  simpa using hlt

/-- Witness for C7: a 1×1 black image has R−B mean difference 0 < 5 and is
rejected regardless of the scan contents. -/
theorem C7_grayscale_rejection_witness :
    WinterParkMeasurer.measure syntheticMarkers 1 grayPixelImage scanC2 = .ok
      { snow_depth_inches := none, confidence_score := 0, stake_visible := true,
        snow_line_y := none, samples := none, notes := "Skipped: grayscale/night image" } :=
  C7_grayscale_rejection syntheticMarkers 1 grayPixelImage scanC2 0
    (by with_unfolding_all rfl) (by norm_num)

/-! ### Claim C10 -/

namespace WinterParkMeasurer

/-- Whether `measure_from_file` actually obtained a decoded image. -/
def ImageLoad.isLoaded : ImageLoad → Bool
  | .loaded _ => true
  | .missing _ => false
  | .unreadable => false

end WinterParkMeasurer

theorem measure_core_stake_visible (markers : List (Int × Int)) (thresh : Rat)
    (detected : Option Int × List Sample) (r : WinterParkMeasurer.WinterParkMeasurement)
    (h : WinterParkMeasurer.measure_core markers thresh detected = .ok r) :
    r.stake_visible = true := by
  match detected with
  | (none, samples) =>
    rw [WinterParkMeasurer.measure_core] at h
    cases h
    rfl
  | (some sy, samples) =>
    rw [WinterParkMeasurer.measure_core] at h
    dsimp only at h
    cases hy : WinterParkMeasurer.y_to_inches markers sy with
    | error e =>
      rw [hy] at h
      exact absurd h (by simp [Bind.bind, Except.bind])
    | ok d =>
      rw [hy, except_bind_ok] at h
      simp only [pure, Except.pure, Except.ok.injEq] at h
      subst h
      rfl

/-- Claim C10 (confirmed): a grayscale/night capture yields
`stake_visible = True` with `samples = None` even though no detection ran,
and `stake_visible = False` arises exactly when the image file was missing
or unreadable. -/
theorem C10_stake_visible_policy :
    (∀ (markers : List (Int × Int)) (thresh : Rat) (img : Image) (scanned : List Sample)
        (d : Rat),
        WinterParkMeasurer.rb_diff img = some d → d < 5 →
        (WinterParkMeasurer.measure_from_file markers thresh (.loaded img) scanned).map
          (fun r => (r.stake_visible, r.samples)) = .ok (true, none))
    ∧ (∀ (markers : List (Int × Int)) (thresh : Rat) (load : WinterParkMeasurer.ImageLoad)
        (scanned : List Sample) (r : WinterParkMeasurer.WinterParkMeasurement),
        WinterParkMeasurer.measure_from_file markers thresh load scanned = .ok r →
        (r.stake_visible = false ↔ load.isLoaded = false)) := by
  constructor
  · intro markers thresh img scanned d hdiff hlt
    rw [WinterParkMeasurer.measure_from_file, WinterParkMeasurer.measure, if_pos]
    · rfl
    rw [WinterParkMeasurer.is_grayscale_image, hdiff]
    simpa using hlt
  · intro markers thresh load scanned r h
    cases load with
    | missing path =>
      rw [WinterParkMeasurer.measure_from_file] at h
      cases h
      simp [WinterParkMeasurer.ImageLoad.isLoaded]
    | unreadable =>
      rw [WinterParkMeasurer.measure_from_file] at h
      cases h
      simp [WinterParkMeasurer.ImageLoad.isLoaded]
    | loaded img =>
      rw [WinterParkMeasurer.measure_from_file, WinterParkMeasurer.measure] at h
      have hvis : r.stake_visible = true := by
        by_cases hg : WinterParkMeasurer.is_grayscale_image img = true
        · rw [if_pos hg] at h
          cases h
          rfl
        · rw [if_neg hg] at h
          exact measure_core_stake_visible markers thresh _ r h
      simp [hvis, WinterParkMeasurer.ImageLoad.isLoaded]

/-- Witness for C10: the grayscale case at a concrete image, and the
missing-file and loaded-image cases of the `stake_visible` equivalence. -/
theorem C10_stake_visible_policy_witness :
    (WinterParkMeasurer.measure_from_file syntheticMarkers 1 (.loaded grayPixelImage) []).map
      (fun r => (r.stake_visible, r.samples)) = .ok (true, none) ∧
    ((WinterParkMeasurer.WinterParkMeasurement.mk none 0 false none none none none none
        "Image not found: x").stake_visible = false ↔
      (WinterParkMeasurer.ImageLoad.missing "x").isLoaded = false) := by
  constructor
  · exact C10_stake_visible_policy.1 syntheticMarkers 1 grayPixelImage [] 0
      (by with_unfolding_all rfl) (by norm_num)
  · exact C10_stake_visible_policy.2 syntheticMarkers 1 (.missing "x") []
      (WinterParkMeasurer.WinterParkMeasurement.mk none 0 false none none none none none
        "Image not found: x") (by with_unfolding_all rfl)

/-! ### Claim C8 -/

/-- Claim C8 (counterexample): the marker-based `y_to_inches` DOES raise on
edge-case calibrations with at least one marker: a single-marker
calibration with `y` at the marker raises IndexError
(`sorted_markers[-2]` on a 1-element list), and two markers with identical
pixel Y raise ZeroDivisionError in the extrapolation branch. -/
theorem C8_counterexample :
    WinterParkMeasurer.y_to_inches [(0, 500)] 400 =
      .error "IndexError: list index out of range" ∧
    WinterParkMeasurer.y_to_inches [(0, 500), (2, 500)] 400 =
      .error "ZeroDivisionError: division by zero" := by
  exact ⟨by with_unfolding_all rfl, by with_unfolding_all rfl⟩

/-! ### Claim C9 -/

/-- Claim C9 (counterexample): with the non-uniform sorted marker set
(0", 1000), (2", 900), (4", 700), (6", 500) the converter returns 6 at the
4" marker's own pixel Y (exactness fails), and moving up the stake from
y = 501 to y = 500 the depth DROPS from 9.98 to 6 (monotonicity fails). -/
theorem C9_counterexample :
    ((4 : Int), (700 : Int)) ∈ nonUniformMarkers ∧
    WinterParkMeasurer.y_to_inches nonUniformMarkers 700 = .ok 6 ∧ (6 : Rat) ≠ 4 ∧
    WinterParkMeasurer.y_to_inches nonUniformMarkers 501 = .ok (499/50) ∧
    WinterParkMeasurer.y_to_inches nonUniformMarkers 500 = .ok 6 ∧ (6 : Rat) < 499/50 := by
  refine ⟨by decide, by with_unfolding_all rfl, by norm_num, by with_unfolding_all rfl,
    by with_unfolding_all rfl, by norm_num⟩

/-- Claim C8 (amended): the LINEAR measurer's `y_to_inches` never raises —
for every calibration whose sorted markers have strictly ascending inch
values (guaranteed by construction from the marker dictionary) and every
pixel position it returns a value (possibly `None`); its guards
(`len >= 2`, `y1 != y2`, `y_low == y_high`, truthiness of `ppi`) cover
every division and index.  The MARKER-BASED measurer's converter, by
contrast, raises on a single-marker calibration with `y` at or above the
marker and on identical top-two marker pixel Ys (see the counterexample). -/
theorem C8_converter_totality
    (sortedMarkers : List (Int × Int)) (ppi : Option Rat)
    (cal : Option SnowStakeMeasurer.Calibration) (y : Int)
    (hchain : List.Chain' (fun a b : Int × Int => a.1 < b.1) sortedMarkers) :
    (SnowStakeMeasurer.y_to_inches sortedMarkers ppi cal y).isOk = true := by
  have htrans : IsTrans (Int × Int) (fun a b : Int × Int => a.1 < b.1) :=
    ⟨fun a b c h1 h2 => lt_trans h1 h2⟩
  rw [SnowStakeMeasurer.y_to_inches]
  cases sortedMarkers with
  | nil =>
    simp only [List.isEmpty_nil, Bool.not_true, Bool.false_eq_true, if_false]
    cases ppi with
    | none => rfl
    | some p =>
      by_cases hp : p = 0
      · subst hp; rfl
      · cases cal with
        | none =>
          rw [if_neg (by simp)]
          rfl
        | some c =>
          rw [if_pos (by simp [truthyRat, hp])]
          simp only [Option.getD_some]
          by_cases htr : truthyInt (match c.reference_y with
            | some r => some r
            | none => dictGet c.marker_positions 0) = true
          · rw [if_pos htr]
            by_cases hdist : (match c.reference_y with
                | some r => some r
                | none => dictGet c.marker_positions 0).getD 0 - y > 0
            · rw [if_pos hdist]
              rw [pyDiv, if_neg (by simpa using hp), except_bind_ok]
              rfl
            · rw [if_neg hdist]; rfl
          · rw [if_neg htr]; rfl
  | cons m tail =>
    simp only [List.isEmpty_cons, Bool.not_false, if_true]
    have hne : (m :: tail : List (Int × Int)) ≠ [] := by simp
    have hbody : ∀ refYv : Int, Except.isOk (do
        (if y ≥ refYv then
          pure (some 0)
        else do
          let top ← pyIdx (m :: tail) (-1)
          if y ≤ top.2 then
            if (m :: tail).length ≥ 2 then do
              let m2 ← pyIdx (m :: tail) (-2)
              if m2.2 ≠ top.2 then do
                let ppiLocal ← pyDiv ((m2.2 - top.2 : Int) : Rat) ((top.1 - m2.1 : Int) : Rat)
                let extraInches ← pyDiv ((top.2 - y : Int) : Rat) ppiLocal
                pure (some ((top.1 : Rat) + extraInches))
              else
                pure (some (top.1 : Rat))
            else
              pure (some (top.1 : Rat))
          else do
            let first ← pyIdx (m :: tail) 0
            let lower := ((WinterParkMeasurer.bracketScan y (m :: tail)).map Prod.fst).getD first
            let upper :=
              match WinterParkMeasurer.bracketScan y (m :: tail) with
              | some (_, some u) => u
              | _ => top
            if lower.2 = upper.2 then
              pure (some (lower.1 : Rat))
            else
              pure (some ((lower.1 : Rat) +
                ((lower.2 - y : Int) : Rat) / ((lower.2 - upper.2 : Int) : Rat) *
                  ((upper.1 : Rat) - (lower.1 : Rat)))) :
          Except String (Option Rat))) = true := by
      intro refYv
      by_cases h1 : y ≥ refYv
      · rw [if_pos h1]; rfl
      · rw [if_neg h1]
        rw [pyIdx_neg_one _ hne, except_bind_ok]
        by_cases h2 : y ≤ ((m :: tail).getLast hne).2
        · rw [if_pos h2]
          by_cases h3 : (m :: tail).length ≥ 2
          · rw [if_pos h3]
            rw [pyIdx_neg_two _ h3, except_bind_ok]
            by_cases h4 : ((m :: tail).get ⟨(m :: tail).length - 2, by omega⟩).2 ≠
                ((m :: tail).getLast hne).2
            · rw [if_pos h4]
              have hAB : ((m :: tail).get ⟨(m :: tail).length - 2, by omega⟩).1 <
                  ((m :: tail).getLast hne).1 := by
                have hp2 := List.pairwise_iff_get.mp (List.chain'_iff_pairwise.mp hchain)
                have hlt : (⟨(m :: tail).length - 2, by omega⟩ : Fin (m :: tail).length) <
                    ⟨(m :: tail).length - 1, by omega⟩ := by
                  simp only [Fin.mk_lt_mk]
                  omega
                have := hp2 _ _ hlt
                rw [List.getLast_eq_get]
                exact this
              have hden : ((((m :: tail).getLast hne).1 -
                  ((m :: tail).get ⟨(m :: tail).length - 2, by omega⟩).1 : Int) : Rat) ≠ 0 := by
                rw [Int.cast_ne_zero]
                omega
              rw [pyDiv, if_neg hden, except_bind_ok]
              have hq : ((((m :: tail).get ⟨(m :: tail).length - 2, by omega⟩).2 -
                    ((m :: tail).getLast hne).2 : Int) : Rat) /
                  ((((m :: tail).getLast hne).1 -
                    ((m :: tail).get ⟨(m :: tail).length - 2, by omega⟩).1 : Int) : Rat) ≠ 0 := by
                apply div_ne_zero
                · rw [Int.cast_ne_zero]
                  omega
                · exact hden
              rw [pyDiv, if_neg hq, except_bind_ok]
              rfl
            · rw [if_neg h4]; rfl
          · rw [if_neg h3]; rfl
        · rw [if_neg h2]
          rw [pyIdx_zero, except_bind_ok]
          dsimp only
          split <;> rfl
    cases hd : dictGet (m :: tail) 0 with
    | some v =>
      dsimp only
      exact hbody v
    | none =>
      dsimp only
      nth_rewrite 1 [pyIdx_zero]
      rw [except_bind_ok]
      exact hbody m.2

/-- Witness for C8: the linear converter returns a value for the synthetic
calibration at y = 850 (its marker inches 0 < 2 < … < 16 are strictly
ascending). -/
theorem C8_converter_totality_witness :
    (SnowStakeMeasurer.y_to_inches syntheticMarkers (some 10) (some calLinear) 850).isOk = true :=
  C8_converter_totality syntheticMarkers (some 10) (some calLinear) 850
    (by norm_num [syntheticMarkers, List.chain'_cons, List.chain'_singleton])

theorem wp_extrapolation_eval (c y0 y : Int) (hc : 0 < c)
    (hcr : ((c : Int) : Rat) ≠ 0) :
    ∀ A B : Int × Int, A.2 = y0 - c * A.1 → B.2 = y0 - c * B.1 → A.1 < B.1 → 0 ≤ A.1 →
    y ≤ B.2 →
    (do
      let ppiLocal ← pyDiv ((A.2 - B.2 : Int) : Rat) ((B.1 - A.1 : Int) : Rat)
      let extraInches ← pyDiv ((B.2 - y : Int) : Rat) ppiLocal
      pure ((B.1 : Rat) + extraInches) : Except String Rat) =
      .ok (max 0 (((y0 - y : Int) : Rat) / (c : Rat))) := by
  intro A B hA hB hABlt hA0 hyB
  have hd : ((B.1 - A.1 : Int) : Rat) ≠ 0 := by
    rw [Int.cast_ne_zero]
    omega
  have hnum : A.2 - B.2 = c * (B.1 - A.1) := by rw [hA, hB]; ring
  have hq : pyDiv ((A.2 - B.2 : Int) : Rat) ((B.1 - A.1 : Int) : Rat) = .ok (c : Rat) := by
    rw [pyDiv, if_neg hd, hnum]
    congr 1
    push_cast at hd ⊢
    field_simp
  rw [hq, except_bind_ok]
  have hq2 : pyDiv ((B.2 - y : Int) : Rat) (c : Rat) =
      .ok (((B.2 - y : Int) : Rat) / (c : Rat)) := by
    rw [pyDiv, if_neg hcr]
  rw [hq2, except_bind_ok]
  have hcb : 0 ≤ c * B.1 := mul_nonneg hc.le (by omega)
  have hy0 : y ≤ y0 := by
    rw [hB] at hyB
    linarith
  rw [max_eq_right]
  · congr 1
    rw [hB]
    push_cast
    field_simp
    ring
  · apply div_nonneg
    · exact_mod_cast sub_nonneg.mpr hy0
    · exact_mod_cast hc.le

theorem wp_affine_eval (y0 c : Int) (m1 : Int × Int) (rest : List (Int × Int))
    (haff : ∀ p ∈ ((0, y0) :: m1 :: rest : List (Int × Int)), p.2 = y0 - c * p.1)
    (hchain : List.Chain' (fun a b : Int × Int => a.1 < b.1) ((0, y0) :: m1 :: rest))
    (hc : 0 < c) (y : Int) :
    WinterParkMeasurer.y_to_inches ((0, y0) :: m1 :: rest) y =
      .ok (max 0 (((y0 - y : Int) : Rat) / (c : Rat))) := by
  have htrans : IsTrans (Int × Int) (fun a b : Int × Int => a.1 < b.1) :=
    ⟨fun a b d h1 h2 => lt_trans h1 h2⟩
  have hcr : ((c : Int) : Rat) ≠ 0 := by
    rw [Int.cast_ne_zero]
    omega
  have hne : ((0, y0) :: m1 :: rest : List (Int × Int)) ≠ [] := by simp
  have hlen : 2 ≤ ((0, y0) :: m1 :: rest : List (Int × Int)).length := by
    simp [List.length_cons]
  have hpw := List.pairwise_iff_get.mp (List.chain'_iff_pairwise.mp hchain)
  rw [WinterParkMeasurer.y_to_inches]
  rw [pyIdx_neg_one _ hne, except_bind_ok]
  by_cases h1 : y ≤ (((0, y0) :: m1 :: rest : List (Int × Int)).getLast hne).2
  · rw [if_pos h1, pyIdx_neg_two _ hlen, except_bind_ok]
    refine wp_extrapolation_eval c y0 y hc hcr _ _ ?_ ?_ ?_ ?_ h1
    · exact haff _ (List.get_mem _ _ _)
    · exact haff _ (List.getLast_mem hne)
    · rw [List.getLast_eq_get]
      refine hpw ⟨((0, y0) :: m1 :: rest : List (Int × Int)).length - 2, by omega⟩
        ⟨((0, y0) :: m1 :: rest : List (Int × Int)).length - 1, by omega⟩ ?_
      simp only [Fin.mk_lt_mk]
      simp [List.length_cons]
    · rcases Nat.eq_zero_or_pos (((0, y0) :: m1 :: rest : List (Int × Int)).length - 2) with h0 | h0
      · rw [show (⟨((0, y0) :: m1 :: rest : List (Int × Int)).length - 2, by omega⟩ :
            Fin ((0, y0) :: m1 :: rest : List (Int × Int)).length) = ⟨0, by omega⟩ from
            Fin.ext h0]
        exact le_refl 0
      · have := hpw ⟨0, by omega⟩
          ⟨((0, y0) :: m1 :: rest : List (Int × Int)).length - 2, by omega⟩
          (by simpa [Fin.mk_lt_mk] using h0)
        simpa using this.le
  · rw [if_neg h1]
    rw [pyIdx_zero, except_bind_ok]
    by_cases h2 : y ≥ ((0, y0) : Int × Int).2
    · rw [if_pos h2]
      have hy0 : y0 ≤ y := h2
      have hnp : (((y0 - y : Int) : Rat) / (c : Rat)) ≤ 0 := by
        apply div_nonpos_of_nonpos_of_nonneg
        · exact_mod_cast sub_nonpos.mpr hy0
        · exact_mod_cast hc.le
      rw [max_eq_left hnp]
      rfl
    · rw [if_neg h2]
      have hylt : y < y0 := by simpa using h2
      rw [bracketScan_cons_of_ge y (0, y0) (m1 :: rest) (by simp; omega)]
      simp only [List.head?_cons, Option.map_some', Option.getD_some]
      have hm1 : (0 : Int) < m1.1 := (List.chain'_cons.mp hchain).1
      have hm1aff : m1.2 = y0 - c * m1.1 := haff m1 (by simp)
      have hprod : (0 : Int) < c * m1.1 := mul_pos hc hm1
      rw [if_neg (by
        show ¬ ((0, y0) : Int × Int).2 = m1.2
        rw [hm1aff]
        simp only []
        omega)]
      have hnn : (0 : Rat) ≤ ((y0 - y : Int) : Rat) / (c : Rat) := by
        apply div_nonneg
        · exact_mod_cast sub_nonneg.mpr hylt.le
        · exact_mod_cast hc.le
      rw [max_eq_right hnn]
      congr 1
      rw [hm1aff]
      have hm1r : ((m1.1 : Int) : Rat) ≠ 0 := by
        rw [Int.cast_ne_zero]
        omega
      push_cast
      field_simp
      ring

/-- Claim C9 (amended): for marker sets with UNIFORM pixels-per-inch —
sorted markers `(0, y0), (i1, y0 − c·i1), …` with strictly ascending inch
values and a positive pixel pitch `c` — the marker-mode depth is
non-decreasing as y decreases, and at each marker's exact pixel Y the
returned depth equals that marker's inch value.  (Non-uniform spacing
breaks both properties, because the interpolation always uses the first
two markers: see the counterexample.) -/
theorem C9_uniform_markers_monotone_exact (y0 c : Int) (m1 : Int × Int)
    (rest : List (Int × Int))
    (haff : ∀ p ∈ ((0, y0) :: m1 :: rest : List (Int × Int)), p.2 = y0 - c * p.1)
    (hchain : List.Chain' (fun a b : Int × Int => a.1 < b.1) ((0, y0) :: m1 :: rest))
    (hc : 0 < c) :
    (∀ y1 y2 : Int, y2 ≤ y1 → ∀ d1 d2 : Rat,
        WinterParkMeasurer.y_to_inches ((0, y0) :: m1 :: rest) y1 = .ok d1 →
        WinterParkMeasurer.y_to_inches ((0, y0) :: m1 :: rest) y2 = .ok d2 → d1 ≤ d2)
    ∧ (∀ p ∈ ((0, y0) :: m1 :: rest : List (Int × Int)),
        WinterParkMeasurer.y_to_inches ((0, y0) :: m1 :: rest) p.2 = .ok ((p.1 : Int) : Rat)) := by
  have hcpos : (0 : Rat) < ((c : Int) : Rat) := by exact_mod_cast hc
  have hcr : ((c : Int) : Rat) ≠ 0 := hcpos.ne'
  constructor
  · intro y1 y2 hle d1 d2 h1 h2
    rw [wp_affine_eval y0 c m1 rest haff hchain hc y1] at h1
    rw [wp_affine_eval y0 c m1 rest haff hchain hc y2] at h2
    injection h1 with h1
    injection h2 with h2
    subst h1
    subst h2
    refine max_le_max le_rfl ?_
    refine (div_le_div_right hcpos).mpr ?_
    exact_mod_cast sub_le_sub_left hle y0
  · intro p hp
    rw [wp_affine_eval y0 c m1 rest haff hchain hc p.2]
    congr 1
    rw [haff p hp]
    rw [show y0 - (y0 - c * p.1) = c * p.1 from by ring]
    have hp1 : (0 : Int) ≤ p.1 := by
      haveI htrans : IsTrans (Int × Int) (fun a b : Int × Int => a.1 < b.1) :=
        ⟨fun a b d hab hbd => lt_trans hab hbd⟩
      have hpw := List.chain'_iff_pairwise.mp hchain
      rcases List.mem_cons.mp hp with h | h
      · rw [h]
      · have := (List.pairwise_cons.mp hpw).1 p h
        simpa using this.le
    push_cast
    rw [mul_div_cancel_left₀ _ hcr]
    rw [max_eq_right (by exact_mod_cast hp1)]

/-- Witness for C9: the amended statement instantiated at the synthetic
markers (uniform pitch c = 50): depth(900) = 2 ≤ depth(800) = 4 as y
decreases, and the 8" marker's pixel Y (600) converts exactly to 8. -/
theorem C9_uniform_markers_monotone_exact_witness :
    (2 : Rat) ≤ 4 ∧
    WinterParkMeasurer.y_to_inches syntheticMarkers 600 = .ok (((8 : Int) , (600 : Int)).1 : Rat) := by
  have h := C9_uniform_markers_monotone_exact 1000 50 (2, 900)
    [(4, 800), (6, 700), (8, 600), (10, 500), (12, 400), (14, 300), (16, 200)]
    (by decide) (by norm_num [List.chain'_cons, List.chain'_singleton]) (by norm_num)
  constructor
  · exact h.1 900 800 (by norm_num) 2 4 (by with_unfolding_all rfl) (by with_unfolding_all rfl)
  · exact h.2 (8, 600) (by decide)
